import Mathlib

/-!
Verification of the reddit market-research tool (`reddit_monitor.py`).

The development shallowly embeds the functional core of the program:

* `check_relevance` — the keyword relevance filter;
* `searchLoop` / `dedupLoop` / `sortByEngagement` / `search_reddit` —
  the per-keyword search aggregation, URL deduplication and engagement
  ranking pipeline;
* `buildSearchRecord` / `buildMonitorRecord` — construction of a post
  record from a raw API payload in search mode and in monitor mode;
* `output_results` together with the renderers `renderText`,
  `renderCsv`, `renderJson` — the result formatter, modelled as a pure
  function returning the text sent to standard output, the text sent to
  the diagnostic stream, and the optional file write.

Python strings are modelled as `String` (or as `List Char` where
character-level reasoning is needed); Python integers are `Int`; the
external reddit client is a parameter (`query`), as is the wall clock
(`now`) and the local-time formatter (`fmtTime`).
-/

namespace RedditMonitor

open List

/-- Lowercasing of a Python string, character by character
(models `str.lower()` on the code points of the text). -/
def strLower (s : List Char) : List Char := s.map Char.toLower

/-- Model of `check_relevance(text, keywords)`: true iff some keyword,
lowercased, occurs as a contiguous substring of the lowercased text
(Python `kw.lower() in text.lower()` inside `any(...)`). -/
def check_relevance (text : List Char) (keywords : List (List Char)) : Bool :=
  keywords.any fun kw => decide (strLower kw <:+: strLower text)

/-- Raw post payload as exposed by the external client: title, community
name, score, comment count, permalink, creation time in epoch seconds,
optional author, and the self text used by the stream monitor. -/
structure Post where
  title : String
  subredditName : String
  score : Int
  num_comments : Int
  permalink : String
  created_utc : Int
  author : Option String
  selftext : String
deriving Repr, DecidableEq

/-- A result record: the seven-field dictionary built by `search_reddit`
and `monitor_reddit` and consumed by `output_results`. -/
structure Record where
  title : String
  subreddit : String
  score : Int
  comments : Int
  url : String
  created : String
  author : String
deriving Repr, DecidableEq

/-- Record construction in `search_reddit`: the `created` field is
derived from the post creation epoch seconds through the local-time
formatter `fmtTime` (models `datetime.fromtimestamp(...).isoformat()`). -/
def buildSearchRecord (fmtTime : Int → String) (p : Post) : Record :=
  { title := p.title
    subreddit := p.subredditName
    score := p.score
    comments := p.num_comments
    url := "https://reddit.com" ++ p.permalink
    created := fmtTime p.created_utc
    author := p.author.getD "[deleted]" }

/-- Record construction in `monitor_reddit`: identical to the search
builder except that `created` is the wall-clock reading `now` at
processing time (models `datetime.now().isoformat()`). -/
def buildMonitorRecord (now : String) (p : Post) : Record :=
  { title := p.title
    subreddit := p.subredditName
    score := p.score
    comments := p.num_comments
    url := "https://reddit.com" ++ p.permalink
    created := now
    author := p.author.getD "[deleted]" }

/-- One stream-monitor step: build the record and emit it iff the title
or the self text matches the keywords. -/
def monitorStep (keywords : List (List Char)) (now : String) (p : Post) :
    Option Record :=
  if check_relevance p.title.data keywords ∨
      check_relevance p.selftext.data keywords then
    some (buildMonitorRecord now p)
  else
    none

/-- Diagnostic line printed when the search for one keyword fails
(f-string `Error searching for '{keyword}': {e}` plus the newline added
by `print`). -/
def errMsg (kw e : String) : String :=
  "Error searching for \x27" ++ kw ++ "\x27: " ++ e ++ "\n"

/-- The per-keyword collection loop of `search_reddit`: for each keyword
the external client is queried; a successful query contributes its posts
as records, a failing one contributes a diagnostic line instead and the
loop continues. Returns the collected records and the diagnostic lines,
both in keyword order. -/
def searchLoop (query : String → Except String (List Post))
    (fmtTime : Int → String) : List String → List Record × List String
  | [] => ([], [])
  | kw :: rest =>
    let tail := searchLoop query fmtTime rest
    match query kw with
    | .ok posts => (posts.map (buildSearchRecord fmtTime) ++ tail.1, tail.2)
    | .error e => (tail.1, errMsg kw e :: tail.2)

/-- The deduplication loop of `search_reddit`: a record is kept iff its
URL has not been seen before; `seen` models the growing `set()` of URLs. -/
def dedupLoop : List String → List Record → List Record
  | _, [] => []
  | seen, r :: rs =>
    if r.url ∈ seen then dedupLoop seen rs
    else r :: dedupLoop (r.url :: seen) rs

/-- Deduplication by permalink URL, starting from an empty seen set. -/
def dedupByUrl (rs : List Record) : List Record := dedupLoop [] rs

/-- The ranking key: score plus comment count. -/
def engagement (r : Record) : Int := r.score + r.comments

/-- The ranking step of `search_reddit`: a stable sort, descending by
engagement (models `list.sort(key=..., reverse=True)`). -/
def sortByEngagement (rs : List Record) : List Record :=
  rs.mergeSort fun a b => decide (engagement b ≤ engagement a)

/-- Model of `search_reddit`: collect per keyword, deduplicate by URL,
rank by engagement; the second component is the diagnostic output. -/
def search_reddit (query : String → Except String (List Post))
    (fmtTime : Int → String) (keywords : List String) :
    List Record × List String :=
  let collected := searchLoop query fmtTime keywords
  (sortByEngagement (dedupByUrl collected.1), collected.2)

/-! ## Rendering of results

The formatter `output_results` is modelled as a pure function from the
record sequence, format selector, optional output path and optional
display cap to an `OutEffect`: the text printed to standard output, the
text printed to the diagnostic stream, and the optional file write. -/

/-- Decimal digits of a natural number, most significant first
(models the digits of Python's `str(n)`). -/
def natDigits : Nat → List Char
  | n =>
    if h : n < 10 then [Char.ofNat (48 + n)]
    else natDigits (n / 10) ++ [Char.ofNat (48 + n % 10)]
  decreasing_by exact Nat.div_lt_self (by omega) (by omega)

/-- Decimal rendering of a Python integer (`str(i)`). -/
def intChars (i : Int) : List Char :=
  if i < 0 then '-' :: natDigits (-i).toNat else natDigits i.toNat

/-- String form of `intChars`. -/
def intStr (i : Int) : String := String.mk (intChars i)

/-- String form of `natDigits`. -/
def natStr (n : Nat) : String := String.mk (natDigits n)

/-- The four text-mode lines printed per record, with the blank
separator line. -/
def recordTextLines (r : Record) : String :=
  "[" ++ intStr r.score ++ " upvotes, " ++ intStr r.comments ++
    " comments] r/" ++ r.subreddit ++
    "\n  Title: " ++ r.title ++
    "\n  URL: " ++ r.url ++
    "\n  Author: u/" ++ r.author ++ "\n\n"

/-- Text-mode rendering: the count header then the per-record blocks. -/
def renderText (rs : List Record) : String :=
  "Found " ++ natStr rs.length ++ " relevant posts:\n\n" ++
    String.join (rs.map recordTextLines)

/-- CSV field quoting (Python `csv` QUOTE_MINIMAL dialect): a field is
quoted iff it contains the delimiter, the quote character or a line
break, and embedded quotes are doubled. -/
def csvField (s : String) : String :=
  if s.contains ',' || s.contains '"' || s.contains '\n' || s.contains '\r' then
    "\"" ++ s.replace "\"" "\"\"" ++ "\""
  else s

/-- One CSV row: comma-joined fields and the CRLF line terminator of the
default `csv` dialect. -/
def csvRow (fields : List String) : String :=
  String.intercalate "," fields ++ "\r\n"

/-- The fixed CSV header row. -/
def csvHeader : String :=
  csvRow ["title", "subreddit", "score", "comments", "url", "created", "author"]

/-- The CSV row of one record, fields in the fixed column order. -/
def recordCsvRow (r : Record) : String :=
  csvRow [csvField r.title, csvField r.subreddit, csvField (intStr r.score),
    csvField (intStr r.comments), csvField r.url, csvField r.created,
    csvField r.author]

/-- CSV-mode rendering: the header row then one row per record. -/
def renderCsv (rs : List Record) : String :=
  csvHeader ++ String.join (rs.map recordCsvRow)

/-- Lowercase hexadecimal digit. -/
def hexDig (d : Nat) : Char :=
  Char.ofNat (if d < 10 then 48 + d else 87 + d)

/-- Four lowercase hexadecimal digits of `n` (for `n < 65536`). -/
def hex4 (n : Nat) : List Char :=
  [hexDig (n / 4096 % 16), hexDig (n / 256 % 16), hexDig (n / 16 % 16),
    hexDig (n % 16)]

/-- JSON escape of one character, as Python's `json.dumps` emits it with
`ensure_ascii` (the default): the seven short escapes, printable ASCII
verbatim, everything else as `\uXXXX`, astral characters as a surrogate
pair. -/
def escapeChar (c : Char) : List Char :=
  if c = '"' then ['\\', '"']
  else if c = '\\' then ['\\', '\\']
  else if c = '\n' then ['\\', 'n']
  else if c = '\r' then ['\\', 'r']
  else if c = '\t' then ['\\', 't']
  else if c.toNat = 8 then ['\\', 'b']
  else if c.toNat = 12 then ['\\', 'f']
  else if 32 ≤ c.toNat ∧ c.toNat ≤ 126 then [c]
  else if c.toNat < 65536 then '\\' :: 'u' :: hex4 c.toNat
  else
    ('\\' :: 'u' :: hex4 (55296 + (c.toNat - 65536) / 1024)) ++
      ('\\' :: 'u' :: hex4 (56320 + (c.toNat - 65536) % 1024))

/-- JSON escape of a character sequence. -/
def jsonEscapeChars : List Char → List Char
  | [] => []
  | c :: cs => escapeChar c ++ jsonEscapeChars cs

/-- A JSON string literal: quote, escaped content, quote. -/
def jsonStrChars (s : String) : List Char :=
  '"' :: (jsonEscapeChars s.data ++ ['"'])

/-- The JSON object of one record as `json.dumps(..., indent=2)` prints
it inside the top-level array: two-space item indent, four-space key
indent, keys in dictionary insertion order. -/
def recordJsonChars (r : Record) : List Char :=
  "  \x7b\n    \"title\": ".data ++ jsonStrChars r.title ++
    (",\n    \"subreddit\": ".data ++ jsonStrChars r.subreddit ++
      (",\n    \"score\": ".data ++ intChars r.score ++
        (",\n    \"comments\": ".data ++ intChars r.comments ++
          (",\n    \"url\": ".data ++ jsonStrChars r.url ++
            (",\n    \"created\": ".data ++ jsonStrChars r.created ++
              (",\n    \"author\": ".data ++ jsonStrChars r.author ++
                "\n  \x7d".data))))))

/-- The comma-newline-joined array items. -/
def jsonItemsChars : List Record → List Char
  | [] => []
  | [r] => recordJsonChars r
  | r :: rs => recordJsonChars r ++ (',' :: '\n' :: jsonItemsChars rs)

/-- The full pretty-printed JSON array (`json.dumps(results, indent=2)`):
`[]` for the empty sequence, otherwise the items between `[` and `]` on
their own lines. -/
def jsonChars (rs : List Record) : List Char :=
  match rs with
  | [] => ['[', ']']
  | _ => '[' :: '\n' :: (jsonItemsChars rs ++ ('\n' :: [']']))

/-- JSON-mode rendering as a string. -/
def renderJson (rs : List Record) : String := String.mk (jsonChars rs)

/-- Model of Python's `str.endswith`: a code-point suffix test. -/
def pyEndsWith (s suffix : String) : Bool :=
  suffix.data.isSuffixOf s.data

/-- The observable effect of one `output_results` call. -/
structure OutEffect where
  stdout : String
  stderr : String
  fileWrite : Option (String × String)
deriving Repr, DecidableEq

/-- The file-save confirmation printed to the diagnostic stream. -/
def savedMsg (n : Nat) (f : String) : String :=
  "Saved " ++ natStr n ++ " results to " ++ f ++ "\n"

/-- Python slice `rs[:l]`: a nonnegative bound takes leading records, a
negative bound drops trailing ones (clamped at zero). -/
def pySliceTo (l : Int) (rs : List Record) : List Record :=
  if 0 ≤ l then rs.take l.toNat else rs.take (rs.length - (-l).toNat)

/-- The truncation step `if limit: results = results[:limit]` — note
that both `None` and `0` are falsy, so a cap of zero disables
truncation. -/
def applyLimit (limit : Option Int) (rs : List Record) : List Record :=
  match limit with
  | none => rs
  | some l => if l = 0 then rs else pySliceTo l rs

/-- Model of `output_results`: truncate, then dispatch on the format
selector — JSON first, then CSV (selected either by name or by an
output path ending in `.csv`), text otherwise. File writes replace
standard output and emit the confirmation on the diagnostic stream; the
text branch has no file handling at all. -/
def output_results (results : List Record) (output_format : String)
    (output_file : Option String) (limit : Option Int) : OutEffect :=
  let res := applyLimit limit results
  if output_format = "json" then
    match output_file with
    | some f =>
      { stdout := "", stderr := savedMsg res.length f
        fileWrite := some (f, renderJson res) }
    | none => { stdout := renderJson res ++ "\n", stderr := "", fileWrite := none }
  else if output_format == "csv" ||
      (match output_file with | some f => pyEndsWith f ".csv" | none => false) then
    match output_file with
    | some f =>
      { stdout := "", stderr := savedMsg res.length f
        fileWrite := some (f, renderCsv res) }
    | none => { stdout := renderCsv res, stderr := "", fileWrite := none }
  else
    { stdout := renderText res, stderr := "", fileWrite := none }

/-! ## A parser for the emitted JSON

`parseRecords` models `json.loads` restricted to the texts
`json.dumps(results, indent=2)` produces for record lists: it accepts
exactly the grammar the serializer emits — decoding string escapes,
recombining surrogate pairs and reading signed integers — and returns
the decoded records. -/

/-- Value of one hexadecimal digit character. -/
def hexVal (c : Char) : Option Nat :=
  if 48 ≤ c.toNat ∧ c.toNat ≤ 57 then some (c.toNat - 48)
  else if 97 ≤ c.toNat ∧ c.toNat ≤ 102 then some (c.toNat - 87)
  else if 65 ≤ c.toNat ∧ c.toNat ≤ 70 then some (c.toNat - 55)
  else none

/-- Value of four hexadecimal digit characters. -/
def hexQuad (a b c d : Char) : Option Nat := do
  let va ← hexVal a
  let vb ← hexVal b
  let vc ← hexVal c
  let vd ← hexVal d
  some (((va * 16 + vb) * 16 + vc) * 16 + vd)

/-- Decode one escape sequence (the part after the backslash): returns
the decoded character and the number of characters consumed — one for a
short escape, five for `uXXXX`, eleven for a surrogate pair. -/
def parseEscape : List Char → Option (Char × Nat)
  | [] => none
  | e :: cs2 =>
    if e = '"' then some ('"', 1)
    else if e = '\\' then some ('\\', 1)
    else if e = 'n' then some ('\n', 1)
    else if e = 'r' then some ('\r', 1)
    else if e = 't' then some ('\t', 1)
    else if e = 'b' then some (Char.ofNat 8, 1)
    else if e = 'f' then some (Char.ofNat 12, 1)
    else if e = 'u' then
      match cs2 with
      | a :: b :: c3 :: d :: cs3 =>
        match hexQuad a b c3 d with
        | none => none
        | some h =>
          if 55296 ≤ h ∧ h ≤ 56319 then
            match cs3 with
            | x1 :: x2 :: a2 :: b2 :: c4 :: d2 :: _ =>
              if x1 = '\\' ∧ x2 = 'u' then
                match hexQuad a2 b2 c4 d2 with
                | none => none
                | some low =>
                  if 56320 ≤ low ∧ low ≤ 57343 then
                    some (Char.ofNat (65536 + (h - 55296) * 1024 + (low - 56320)), 11)
                  else none
              else none
            | _ => none
          else if 56320 ≤ h ∧ h ≤ 57343 then none
          else some (Char.ofNat h, 5)
      | _ => none
    else none

/-- Parse the body of a JSON string literal up to and including the
closing quote, decoding escapes through `parseEscape`. -/
def parseStrBody : List Char → Option (List Char × List Char)
  | [] => none
  | c :: cs =>
    if c = '"' then some ([], cs)
    else if c = '\\' then
      match parseEscape cs with
      | none => none
      | some (ch, k) => (fun p => (ch :: p.1, p.2)) <$> parseStrBody (cs.drop k)
    else (fun p => (c :: p.1, p.2)) <$> parseStrBody cs
  termination_by cs => cs.length
  decreasing_by all_goals simp_wf <;> omega

/-- Parse a JSON string literal from its opening quote. -/
def parseJString (cs : List Char) : Option (String × List Char) :=
  match cs with
  | '"' :: rest => (fun p => (String.mk p.1, p.2)) <$> parseStrBody rest
  | _ => none

/-- Split the leading run of decimal digits. -/
def takeDigits : List Char → List Char × List Char
  | [] => ([], [])
  | c :: cs =>
    if 48 ≤ c.toNat ∧ c.toNat ≤ 57 then
      let p := takeDigits cs
      (c :: p.1, p.2)
    else ([], c :: cs)

/-- Numeric value of a digit run. -/
def digitsVal (ds : List Char) : Nat :=
  ds.foldl (fun a c => 10 * a + (c.toNat - 48)) 0

/-- Parse a JSON integer: an optional minus sign, then digits. -/
def parseInt (cs : List Char) : Option (Int × List Char) :=
  match cs with
  | [] => none
  | c :: cs2 =>
    if c = '-' then
      match takeDigits cs2 with
      | ([], _) => none
      | (ds, rest) => some (-(digitsVal ds : Int), rest)
    else
      match takeDigits (c :: cs2) with
      | ([], _) => none
      | (ds, rest) => some ((digitsVal ds : Int), rest)

/-- Strip an expected literal token. -/
def dropLit : List Char → List Char → Option (List Char)
  | [], cs => some cs
  | _ :: _, [] => none
  | a :: p, c :: cs => if a = c then dropLit p cs else none

/-- Parse one record object of the pretty-printed array. -/
def parseRecord (cs : List Char) : Option (Record × List Char) := do
  let cs ← dropLit "  \x7b\n    \"title\": ".data cs
  let (title, cs) ← parseJString cs
  let cs ← dropLit ",\n    \"subreddit\": ".data cs
  let (subreddit, cs) ← parseJString cs
  let cs ← dropLit ",\n    \"score\": ".data cs
  let (score, cs) ← parseInt cs
  let cs ← dropLit ",\n    \"comments\": ".data cs
  let (comments, cs) ← parseInt cs
  let cs ← dropLit ",\n    \"url\": ".data cs
  let (url, cs) ← parseJString cs
  let cs ← dropLit ",\n    \"created\": ".data cs
  let (created, cs) ← parseJString cs
  let cs ← dropLit ",\n    \"author\": ".data cs
  let (author, cs) ← parseJString cs
  let cs ← dropLit "\n  \x7d".data cs
  some ({ title, subreddit, score, comments, url, created, author }, cs)

/-- Parse the comma-separated record objects; `fuel` bounds the count. -/
def parseRecordList : Nat → List Char → Option (List Record × List Char)
  | 0, _ => none
  | fuel + 1, cs => do
    let (r, rest) ← parseRecord cs
    match rest with
    | ',' :: '\n' :: rest2 => do
      let (rs, rest3) ← parseRecordList fuel rest2
      some (r :: rs, rest3)
    | _ => some ([r], rest)

/-- Model of `json.loads` on the pretty-printed output: the empty
array, or the bracketed item list, consumed in full. -/
def parseRecords (s : String) : Option (List Record) :=
  match s.data with
  | ['[', ']'] => some []
  | '[' :: '\n' :: rest =>
    match parseRecordList (rest.length + 1) rest with
    | some (rs, ['\n', ']']) => some rs
    | _ => none
  | _ => none

/-! ## Sample data used by the witness theorems -/

/-- Sample record (field values from the repository test fixtures). -/
def sampleRec1 : Record :=
  { title := "Test Post 1"
    subreddit := "weddingplanning"
    score := 100
    comments := 50
    url := "https://reddit.com/r/weddingplanning/test1"
    created := "2025-01-01T12:00:00"
    author := "testuser1" }

/-- Second sample record. -/
def sampleRec2 : Record :=
  { title := "Test Post 2"
    subreddit := "eventplanning"
    score := 200
    comments := 75
    url := "https://reddit.com/r/eventplanning/test2"
    created := "2025-01-02T12:00:00"
    author := "testuser2" }

/-- A later record sharing `sampleRec1`'s permalink URL. -/
def sampleRecDup : Record :=
  { sampleRec1 with title := "Duplicate", score := 5, comments := 1 }

/-- A sample external client: fails on the keyword "bad", returns no
posts otherwise. -/
def sampleQuery : String → Except String (List Post) :=
  fun kw => if kw = "bad" then .error "boom" else .ok []

/-- A sample local-time formatter. -/
def sampleFmt : Int → String := fun _ => "2025-01-01T00:00:00"

/-- A sample post payload. -/
def samplePost : Post :=
  { title := "Need a seating chart"
    subredditName := "weddingplanning"
    score := 7
    num_comments := 3
    permalink := "/r/weddingplanning/p1"
    created_utc := 1735689600
    author := some "alice"
    selftext := "table layout question" }

/-! ## Lemmas about the deduplication loop -/

theorem dedupLoop_sublist (seen : List String) (rs : List Record) :
    dedupLoop seen rs <+ rs := by
  induction rs generalizing seen with
  | nil => simp [dedupLoop]
  | cons r rs ih =>
    simp only [dedupLoop]
    by_cases h : r.url ∈ seen
    · simp only [if_pos h]
      exact (ih seen).cons r
    · simp only [if_neg h]
      exact (ih (r.url :: seen)).cons₂ r

theorem dedupLoop_not_seen (seen : List String) (rs : List Record)
    (r : Record) (hr : r ∈ dedupLoop seen rs) : r.url ∉ seen := by
  induction rs generalizing seen with
  | nil => simp [dedupLoop] at hr
  | cons x rs ih =>
    simp only [dedupLoop] at hr
    by_cases h : x.url ∈ seen
    · rw [if_pos h] at hr
      exact ih seen hr
    · rw [if_neg h] at hr
      rcases List.mem_cons.mp hr with h1 | h1
      · subst h1; exact h
      · intro hc
        exact ih (x.url :: seen) h1 (List.mem_cons_of_mem _ hc)

theorem dedupLoop_nodup (seen : List String) (rs : List Record) :
    ((dedupLoop seen rs).map (fun r => r.url)).Nodup := by
  induction rs generalizing seen with
  | nil => simp [dedupLoop]
  | cons x rs ih =>
    simp only [dedupLoop]
    by_cases h : x.url ∈ seen
    · rw [if_pos h]; exact ih seen
    · rw [if_neg h]
      simp only [List.map_cons, List.nodup_cons]
      refine ⟨?_, ih (x.url :: seen)⟩
      intro hc
      rcases List.mem_map.mp hc with ⟨y, hy, hyu⟩
      exact dedupLoop_not_seen _ _ _ hy (hyu ▸ List.mem_cons_self _ _)

theorem dedupLoop_find (seen : List String) (rs : List Record)
    (r : Record) (hr : r ∈ dedupLoop seen rs) :
    rs.find? (fun x => x.url == r.url) = some r := by
  induction rs generalizing seen with
  | nil => simp [dedupLoop] at hr
  | cons x rs ih =>
    simp only [dedupLoop] at hr
    by_cases h : x.url ∈ seen
    · rw [if_pos h] at hr
      have hne : r.url ≠ x.url := by
        intro hc
        exact dedupLoop_not_seen seen rs r hr (hc ▸ h)
      rw [List.find?_cons_of_neg, ih seen hr]
      simp [beq_iff_eq]
      exact fun hc => hne hc.symm
    · rw [if_neg h] at hr
      rcases List.mem_cons.mp hr with h1 | h1
      · subst h1
        rw [List.find?_cons_of_pos]
        simp [beq_iff_eq]
      · have hne : x.url ≠ r.url := by
          intro hc
          exact dedupLoop_not_seen _ _ _ h1 (by simp [hc])
        rw [List.find?_cons_of_neg, ih (x.url :: seen) h1]
        simp [beq_iff_eq, hne]

theorem dedupLoop_covers (seen : List String) (rs : List Record)
    (r : Record) (hr : r ∈ rs) :
    r.url ∈ seen ∨ ∃ x ∈ dedupLoop seen rs, x.url = r.url := by
  induction rs generalizing seen with
  | nil => simp at hr
  | cons x rs ih =>
    simp only [dedupLoop]
    rcases List.mem_cons.mp hr with h1 | h1
    · subst h1
      by_cases h : r.url ∈ seen
      · exact Or.inl h
      · rw [if_neg h]
        exact Or.inr ⟨r, List.mem_cons_self _ _, rfl⟩
    · by_cases h : x.url ∈ seen
      · rw [if_pos h]
        exact ih seen h1
      · rw [if_neg h]
        rcases ih (x.url :: seen) h1 with h2 | ⟨y, hy, hyu⟩
        · rcases List.mem_cons.mp h2 with h3 | h3
          · exact Or.inr ⟨x, List.mem_cons_self _ _, h3.symm⟩
          · exact Or.inl h3
        · exact Or.inr ⟨y, List.mem_cons_of_mem _ hy, hyu⟩

/-! ## Lemmas about the engagement sort -/

theorem engagement_le_trans (a b c : Record)
    (hab : decide (engagement b ≤ engagement a) = true)
    (hbc : decide (engagement c ≤ engagement b) = true) :
    decide (engagement c ≤ engagement a) = true := by
  simp only [decide_eq_true_iff] at *
  exact le_trans hbc hab

theorem engagement_le_total (a b : Record) :
    (decide (engagement b ≤ engagement a) || decide (engagement a ≤ engagement b)) = true := by
  rcases le_total (engagement b) (engagement a) with h | h <;> simp [h]

theorem sortByEngagement_sorted (rs : List Record) :
    (sortByEngagement rs).Pairwise fun a b => engagement b ≤ engagement a := by
  have h := @List.sorted_mergeSort Record
    (fun a b : Record => decide (engagement b ≤ engagement a))
    engagement_le_trans engagement_le_total rs
  exact h.imp fun h => of_decide_eq_true h

theorem sortByEngagement_stable (rs : List Record) (v : Int) :
    (sortByEngagement rs).filter (fun r => engagement r == v) =
      rs.filter (fun r => engagement r == v) := by
  set p : Record → Bool := fun r => engagement r == v with hp
  have hpair : (rs.filter p).Pairwise
      fun a b => decide (engagement b ≤ engagement a) = true := by
    refine List.pairwise_of_forall_mem_list ?_
    intro a ha b hb
    have ha2 : engagement a = v := by
      have := List.of_mem_filter ha
      simpa [hp] using this
    have hb2 : engagement b = v := by
      have := List.of_mem_filter hb
      simpa [hp] using this
    simp [ha2, hb2]
  have h1 : rs.filter p <+ sortByEngagement rs :=
    List.sublist_mergeSort engagement_le_trans engagement_le_total hpair
      (List.filter_sublist rs)
  have h2 : rs.filter p <+ (sortByEngagement rs).filter p := by
    have h3 := h1.filter p
    have h5 : (fun a : Record => p a && p a) = p := by
      funext a; exact Bool.and_self (p a)
    rwa [List.filter_filter, h5] at h3
  have h4 : (sortByEngagement rs).filter p ~ rs.filter p :=
    (List.mergeSort_perm rs _).filter p
  exact (h2.eq_of_length h4.length_eq.symm).symm

/-! ## Lemmas about the search loop -/

theorem searchLoop_append (query : String → Except String (List Post))
    (fmtTime : Int → String) (ks1 ks2 : List String) :
    searchLoop query fmtTime (ks1 ++ ks2) =
      ((searchLoop query fmtTime ks1).1 ++ (searchLoop query fmtTime ks2).1,
       (searchLoop query fmtTime ks1).2 ++ (searchLoop query fmtTime ks2).2) := by
  induction ks1 with
  | nil => simp [searchLoop]
  | cons kw rest ih =>
    cases hq : query kw with
    | ok posts =>
      simp only [List.cons_append, searchLoop, hq, List.append_eq]
      rw [ih]
      simp [List.append_assoc]
    | error e =>
      simp only [List.cons_append, searchLoop, hq, List.append_eq]
      rw [ih]

/-! ## Claim theorems -/

/-- C3: `check_relevance(T, K)` returns true iff some keyword of `K`,
lower-cased, is a contiguous substring of `T` lower-cased. -/
theorem check_relevance_iff (text : List Char) (keywords : List (List Char)) :
    check_relevance text keywords = true ↔
      ∃ kw ∈ keywords, strLower kw <:+: strLower text := by
  simp [check_relevance]

/-- C2 (counterexample): the claim "empty text yields false regardless of
the keywords" fails when the keyword list contains the empty string —
Python's `"" in ""` is true, so `check_relevance("", [""])` returns true. -/
theorem check_relevance_empty_cex : check_relevance [] [[]] = true := by decide

/-- C2 (amended): an empty keyword list yields false for every text, and
empty text yields false for every keyword list none of whose keywords is
the empty string. -/
theorem check_relevance_empty (text : List Char) (keywords : List (List Char))
    (hk : ∀ kw ∈ keywords, kw ≠ []) :
    check_relevance text [] = false ∧ check_relevance [] keywords = false := by
  constructor
  · rfl
  · rw [Bool.eq_false_iff]
    intro hc
    rcases (check_relevance_iff [] keywords).mp hc with ⟨kw, hkw, hinf⟩
    have : strLower kw = [] := List.infix_nil.mp (by simpa [strLower] using hinf)
    exact hk kw hkw (by simpa [strLower] using this)

/-- C2 (witness): the amended theorem applied at text "h" and keyword
list ["a"]. -/
theorem check_relevance_empty_witness :
    (∀ kw ∈ [[ 'a']], kw ≠ ([] : List Char)) ∧
      (check_relevance [ 'h'] [] = false ∧
        check_relevance [] [[ 'a']] = false) :=
  ⟨by decide, check_relevance_empty [ 'h'] [[ 'a']] (by decide)⟩

/-- C4: the deduplication step keeps, for each distinct permalink URL,
exactly the first-encountered record in collection order (the `find?`
hit), drops later records with the same URL (the output is a sublist
with pairwise-distinct URLs), loses no URL, and the pairwise
distinctness survives the final ranking step of `search_reddit`. -/
theorem dedupByUrl_spec (rs : List Record) :
    dedupByUrl rs <+ rs ∧
    ((dedupByUrl rs).map fun r => r.url).Nodup ∧
    (∀ r ∈ dedupByUrl rs, rs.find? (fun x => x.url == r.url) = some r) ∧
    (∀ r ∈ rs, ∃ x ∈ dedupByUrl rs, x.url = r.url) ∧
    ((sortByEngagement (dedupByUrl rs)).map fun r => r.url).Nodup := by
  refine ⟨dedupLoop_sublist [] rs, dedupLoop_nodup [] rs,
    fun r hr => dedupLoop_find [] rs r hr, fun r hr => ?_, ?_⟩
  · rcases dedupLoop_covers [] rs r hr with h | h
    · simp at h
    · exact h
  · have hperm : (sortByEngagement (dedupByUrl rs)).map (fun r => r.url) ~
        (dedupByUrl rs).map fun r => r.url :=
      (List.mergeSort_perm _ _).map _
    exact hperm.nodup_iff.mpr (dedupLoop_nodup [] rs)

/-- C4 (witness): the deduplication theorem evaluated on a three-record
list whose first and second records share a URL. -/
theorem dedupByUrl_spec_witness :
    sampleRec1 ∈ [sampleRec1, sampleRecDup, sampleRec2] ∧
      sampleRecDup ∈ [sampleRec1, sampleRecDup, sampleRec2] ∧
      sampleRec1 ∈ dedupByUrl [sampleRec1, sampleRecDup, sampleRec2] ∧
      [sampleRec1, sampleRecDup, sampleRec2].find?
          (fun x => x.url == sampleRec1.url) = some sampleRec1 ∧
      ∃ x ∈ dedupByUrl [sampleRec1, sampleRecDup, sampleRec2],
        x.url = sampleRecDup.url :=
  ⟨by decide, by decide, by decide,
    (dedupByUrl_spec [sampleRec1, sampleRecDup, sampleRec2]).2.2.1 sampleRec1
      (by decide),
    (dedupByUrl_spec [sampleRec1, sampleRecDup, sampleRec2]).2.2.2.1 sampleRecDup
      (by decide)⟩

/-- C5: the sequence `search_reddit` returns is sorted descending by
engagement (score plus comments), and for every engagement value the
records carrying it appear in the same relative order as after
deduplication (the sort is stable). -/
theorem search_reddit_ranking (query : String → Except String (List Post))
    (fmtTime : Int → String) (keywords : List String) :
    (search_reddit query fmtTime keywords).1.Pairwise
      (fun a b => engagement b ≤ engagement a) ∧
    ∀ v : Int,
      (search_reddit query fmtTime keywords).1.filter
          (fun r => engagement r == v) =
        (dedupByUrl (searchLoop query fmtTime keywords).1).filter
          fun r => engagement r == v :=
  ⟨sortByEngagement_sorted _, fun v => sortByEngagement_stable _ v⟩

/-- C6: when the query for one keyword fails, the loop emits a
diagnostic line containing that keyword and the error message,
contributes no records for it, and the records of every other keyword —
earlier and later — are exactly what they would have been. -/
theorem search_error_isolated (query : String → Except String (List Post))
    (fmtTime : Int → String) (ks1 ks2 : List String) (kw e : String)
    (h : query kw = .error e) :
    searchLoop query fmtTime (ks1 ++ kw :: ks2) =
      ((searchLoop query fmtTime ks1).1 ++ (searchLoop query fmtTime ks2).1,
        (searchLoop query fmtTime ks1).2 ++
          errMsg kw e :: (searchLoop query fmtTime ks2).2) ∧
    kw.data <:+: (errMsg kw e).data ∧ e.data <:+: (errMsg kw e).data := by
  refine ⟨?_, ?_, ?_⟩
  · rw [searchLoop_append query fmtTime ks1 (kw :: ks2)]
    simp only [searchLoop, h]
  · exact ⟨"Error searching for \x27".data, ("\x27: " ++ e ++ "\n").data,
      by simp [errMsg]⟩
  · exact ⟨("Error searching for \x27" ++ kw ++ "\x27: ").data, "\n".data,
      by simp [errMsg]⟩

/-- C6 (witness): the error-isolation theorem evaluated with the sample
client, which fails on the keyword "bad". -/
theorem search_error_isolated_witness :
    sampleQuery "bad" = .error "boom" ∧
      (searchLoop sampleQuery sampleFmt (["seating chart"] ++ "bad" :: ["table layout"]) =
        ((searchLoop sampleQuery sampleFmt ["seating chart"]).1 ++
            (searchLoop sampleQuery sampleFmt ["table layout"]).1,
          (searchLoop sampleQuery sampleFmt ["seating chart"]).2 ++
            errMsg "bad" "boom" :: (searchLoop sampleQuery sampleFmt ["table layout"]).2) ∧
        "bad".data <:+: (errMsg "bad" "boom").data ∧
        "boom".data <:+: (errMsg "bad" "boom").data) :=
  ⟨rfl, search_error_isolated sampleQuery sampleFmt ["seating chart"]
    ["table layout"] "bad" "boom" rfl⟩

/-- C9: the monitor-mode record stamps `created` with the wall-clock
reading at processing time — identical submission data processed at
distinct clock readings gives distinct `created` values — while the
search-mode record derives `created` from the post's creation epoch
seconds alone. -/
theorem monitor_created_wall_clock (p : Post) (now now1 now2 : String)
    (keywords : List (List Char)) (fmtTime : Int → String)
    (hne : now1 ≠ now2) :
    (buildMonitorRecord now p).created = now ∧
    (buildMonitorRecord now1 p).created ≠ (buildMonitorRecord now2 p).created ∧
    (∀ r ∈ monitorStep keywords now p, r.created = now) ∧
    (buildSearchRecord fmtTime p).created = fmtTime p.created_utc := by
  refine ⟨rfl, hne, ?_, rfl⟩
  intro r hr
  unfold monitorStep at hr
  split at hr
  · simp only [Option.mem_def, Option.some.injEq] at hr
    subst hr
    rfl
  · simp at hr

/-- C9 (witness): the wall-clock theorem evaluated on the sample post at
two distinct clock readings. -/
theorem monitor_created_wall_clock_witness :
    ("2025-01-01T00:00:01" : String) ≠ "2025-01-01T00:00:02" ∧
      ((buildMonitorRecord "2025-01-01T00:00:01" samplePost).created =
          "2025-01-01T00:00:01" ∧
        (buildMonitorRecord "2025-01-01T00:00:01" samplePost).created ≠
          (buildMonitorRecord "2025-01-01T00:00:02" samplePost).created ∧
        (∀ r ∈ monitorStep [[ 's']] "2025-01-01T00:00:01" samplePost,
          r.created = "2025-01-01T00:00:01") ∧
        (buildSearchRecord sampleFmt samplePost).created =
          sampleFmt samplePost.created_utc) :=
  ⟨by decide, monitor_created_wall_clock samplePost "2025-01-01T00:00:01"
    "2025-01-01T00:00:01" "2025-01-01T00:00:02" [[ 's']] sampleFmt (by decide)⟩

/-- C1 (counterexample): with the text selector and a file path not
ending in `.csv`, `output_results` writes nothing to the file and sends
the rendered text to standard output — the claim that every selector
honours the file path fails. -/
theorem output_text_file_cex :
    (output_results [sampleRec1] "text" (some "out.txt") none).fileWrite = none ∧
    (output_results [sampleRec1] "text" (some "out.txt") none).stdout =
      renderText [sampleRec1] ∧
    renderText [sampleRec1] ≠ "" ∧
    (output_results [sampleRec1] "text" (some "out.txt") none).stderr = "" := by
  refine ⟨rfl, rfl, ?_, rfl⟩
  decide

/-- C1 (amended): for the json and csv selectors a given file path
receives the rendered output, the diagnostic stream gets the
record-count confirmation, and standard output stays empty; with no
path, output goes to standard output. For the text selector output goes
to standard output — a file path is honoured only when it ends in
`.csv`, in which case CSV is written to it. -/
theorem output_results_routing (rs : List Record) (f g : String)
    (lim : Option Int) (hf : pyEndsWith f ".csv" = true)
    (hg : pyEndsWith g ".csv" = false) :
    output_results rs "json" (some g) lim =
      { stdout := "", stderr := savedMsg (applyLimit lim rs).length g
        fileWrite := some (g, renderJson (applyLimit lim rs)) } ∧
    output_results rs "json" none lim =
      { stdout := renderJson (applyLimit lim rs) ++ "\n", stderr := ""
        fileWrite := none } ∧
    output_results rs "csv" (some g) lim =
      { stdout := "", stderr := savedMsg (applyLimit lim rs).length g
        fileWrite := some (g, renderCsv (applyLimit lim rs)) } ∧
    output_results rs "csv" none lim =
      { stdout := renderCsv (applyLimit lim rs), stderr := ""
        fileWrite := none } ∧
    output_results rs "text" (some f) lim =
      { stdout := "", stderr := savedMsg (applyLimit lim rs).length f
        fileWrite := some (f, renderCsv (applyLimit lim rs)) } ∧
    output_results rs "text" (some g) lim =
      { stdout := renderText (applyLimit lim rs), stderr := ""
        fileWrite := none } ∧
    output_results rs "text" none lim =
      { stdout := renderText (applyLimit lim rs), stderr := ""
        fileWrite := none } ∧
    (natStr (applyLimit lim rs).length).data <:+:
      (savedMsg (applyLimit lim rs).length g).data := by
  refine ⟨by simp [output_results], by simp [output_results],
    by simp [output_results], by simp [output_results],
    by simp [output_results, hf], by simp [output_results, hg],
    by simp [output_results], ?_⟩
  exact ⟨"Saved ".data, (" results to " ++ g ++ "\n").data, by simp [savedMsg]⟩

/-- C1 (witness): the routing theorem evaluated on the empty record
list with the paths "results.csv" and "results.txt". -/
theorem output_results_routing_witness :
    pyEndsWith "results.csv" ".csv" = true ∧
    pyEndsWith "results.txt" ".csv" = false ∧
    (output_results [] "json" (some "results.txt") none =
      { stdout := "", stderr := savedMsg (applyLimit none []).length "results.txt"
        fileWrite := some ("results.txt", renderJson (applyLimit none [])) } ∧
    output_results [] "json" none none =
      { stdout := renderJson (applyLimit none []) ++ "\n", stderr := ""
        fileWrite := none } ∧
    output_results [] "csv" (some "results.txt") none =
      { stdout := "", stderr := savedMsg (applyLimit none []).length "results.txt"
        fileWrite := some ("results.txt", renderCsv (applyLimit none [])) } ∧
    output_results [] "csv" none none =
      { stdout := renderCsv (applyLimit none []), stderr := ""
        fileWrite := none } ∧
    output_results [] "text" (some "results.csv") none =
      { stdout := "", stderr := savedMsg (applyLimit none []).length "results.csv"
        fileWrite := some ("results.csv", renderCsv (applyLimit none [])) } ∧
    output_results [] "text" (some "results.txt") none =
      { stdout := renderText (applyLimit none []), stderr := ""
        fileWrite := none } ∧
    output_results [] "text" none none =
      { stdout := renderText (applyLimit none []), stderr := ""
        fileWrite := none } ∧
    (natStr (applyLimit none ([] : List Record)).length).data <:+:
      (savedMsg (applyLimit none ([] : List Record)).length "results.txt").data) :=
  ⟨by decide, by decide,
    output_results_routing [] "results.csv" "results.txt" none (by decide) (by decide)⟩

/-- C7 (counterexample): a display cap of zero is falsy in Python, so
`output_results` renders all records instead of the claimed
`min(0, len)` — on a one-record list the rendered output keeps the
record. -/
theorem truncation_zero_cap_cex :
    applyLimit (some 0) [sampleRec1] = [sampleRec1] ∧
    (applyLimit (some 0) [sampleRec1]).length ≠ min (Int.toNat 0) [sampleRec1].length ∧
    (output_results [sampleRec1] "json" none (some 0)).stdout =
      renderJson [sampleRec1] ++ "\n" :=
  ⟨rfl, by decide, rfl⟩

/-- C7 (amended): for every positive display cap `l` the formatter
renders exactly `min(l, len)` records, namely the leading ones — the
whole call factors through truncation to `results[:l]`; a cap of zero
(or none) disables truncation. -/
theorem truncation_positive_cap (rs : List Record) (l : Int) (fmt : String)
    (file : Option String) (h : 1 ≤ l) :
    applyLimit (some l) rs = rs.take l.toNat ∧
    (applyLimit (some l) rs).length = min l.toNat rs.length ∧
    output_results rs fmt file (some l) =
      output_results (rs.take l.toNat) fmt file none := by
  have h0 : ¬l = 0 := by omega
  have h1 : (0 : Int) ≤ l := by omega
  have ha : applyLimit (some l) rs = rs.take l.toNat := by
    simp [applyLimit, h0, pySliceTo, h1]
  refine ⟨ha, by rw [ha]; exact List.length_take _ _, ?_⟩
  unfold output_results
  rw [ha]
  rfl

/-- C7 (witness): the truncation theorem at cap 1 on a two-record list:
only the first record survives. -/
theorem truncation_positive_cap_witness :
    (1 : Int) ≤ 1 ∧
      (applyLimit (some 1) [sampleRec1, sampleRec2] =
          [sampleRec1, sampleRec2].take (Int.toNat 1) ∧
        (applyLimit (some 1) [sampleRec1, sampleRec2]).length =
          min (Int.toNat 1) [sampleRec1, sampleRec2].length ∧
        output_results [sampleRec1, sampleRec2] "text" none (some 1) =
          output_results ([sampleRec1, sampleRec2].take (Int.toNat 1))
            "text" none none) :=
  ⟨by decide,
    truncation_positive_cap [sampleRec1, sampleRec2] 1 "text" none (by decide)⟩

/-- C10: a file path ending in `.csv` forces CSV output — the fixed
header row then one row per record, written to that file — even under
the text selector. -/
theorem csv_extension_overrides_text (rs : List Record) (f : String)
    (lim : Option Int) (h : pyEndsWith f ".csv" = true) :
    output_results rs "text" (some f) lim =
      { stdout := "", stderr := savedMsg (applyLimit lim rs).length f
        fileWrite := some (f, renderCsv (applyLimit lim rs)) } ∧
    renderCsv (applyLimit lim rs) =
      csvHeader ++ String.join ((applyLimit lim rs).map recordCsvRow) :=
  ⟨by simp [output_results, h], rfl⟩

/-- C10 (witness): the extension-override theorem evaluated on one
record with the path "save.csv". -/
theorem csv_extension_overrides_text_witness :
    pyEndsWith "save.csv" ".csv" = true ∧
      (output_results [sampleRec1] "text" (some "save.csv") none =
        { stdout := ""
          stderr := savedMsg (applyLimit none [sampleRec1]).length "save.csv"
          fileWrite := some ("save.csv", renderCsv (applyLimit none [sampleRec1])) } ∧
      renderCsv (applyLimit none [sampleRec1]) =
        csvHeader ++ String.join ((applyLimit none [sampleRec1]).map recordCsvRow)) :=
  ⟨by decide,
    csv_extension_overrides_text [sampleRec1] "save.csv" none (by decide)⟩

/-! ## Round-trip lemmas for the JSON serializer and parser -/

theorem char_toNat_valid (c : Char) :
    c.toNat < 55296 ∨ (57343 < c.toNat ∧ c.toNat < 1114112) := by
  rcases c.valid with h | ⟨h1, h2⟩
  · exact Or.inl h
  · exact Or.inr ⟨h1, h2⟩

theorem toNat_ofNat_valid (n : Nat)
    (h : n < 55296 ∨ (57343 < n ∧ n < 1114112)) :
    (Char.ofNat n).toNat = n := by
  have hv : n.isValidChar := by
    rcases h with h | ⟨h1, h2⟩
    · exact Or.inl h
    · exact Or.inr ⟨h1, h2⟩
  rw [Char.ofNat, dif_pos hv]
  simp [Char.ofNatAux, Char.toNat, UInt32.toNat, BitVec.toNat_ofNatLt]

theorem hexVal_hexDig : ∀ d, d < 16 → hexVal (hexDig d) = some d := by decide

theorem hex4_eval (n : Nat) (h : n < 65536) :
    ((n / 4096 % 16 * 16 + n / 256 % 16) * 16 + n / 16 % 16) * 16 + n % 16 = n := by
  omega

end RedditMonitor
